import Mathlib

/-!
Shallow embedding of the SVE instruction encoder from
`External/FEXCore/Source/Interface/Core/ArchHelpers/CodeEmitter/SVEOps.inl`.

Each C++ emitter method appends exactly one 32-bit word to the code buffer,
or aborts (`LOGMAN_THROW_*`) on a violated precondition.  We model a call as
a function returning `Option Nat`: `some w` is the single emitted word,
`none` is an abort before anything reaches the output stream.

Machine words are `Nat` with explicit `% 2^32` (the C++ arithmetic is on
`uint32_t`).  Field installation uses `|||`/`<<<` exactly as the source
uses `|=`/`<<`.
-/

namespace SVEOps

/-- Element size selector, mirroring `FEXCore::ARMEmitter::SubRegSize`. -/
inductive SubRegSize
  | i8Bit
  | i16Bit
  | i32Bit
  | i64Bit
  | i128Bit
deriving DecidableEq, Fintype

/-- Modelled from the spec: the underlying enum value of `SubRegSize`
(the size field codes `0b000`..`0b100` for 8..128-bit lanes); the enum
definition itself lives outside the sources of this subsystem. -/
def ToUnderlying : SubRegSize → Nat
  | .i8Bit => 0b00
  | .i16Bit => 0b01
  | .i32Bit => 0b10
  | .i64Bit => 0b11
  | .i128Bit => 0b100

/-- Modelled from the spec: size-to-bit-width mapping (`SubRegSizeInBits`),
defined outside the sources of this subsystem. -/
def SubRegSizeInBits : SubRegSize → Nat
  | .i8Bit => 8
  | .i16Bit => 16
  | .i32Bit => 32
  | .i64Bit => 64
  | .i128Bit => 128

/-- Rotation operand, mirroring `FEXCore::ARMEmitter::Rotation`. -/
inductive Rotation
  | ROTATE_0
  | ROTATE_90
  | ROTATE_180
  | ROTATE_270
deriving DecidableEq

/-- SVE vector register z0-z31; `Idx` is the C++ `Idx()` accessor. -/
structure ZRegister where
  Idx : Fin 32
deriving DecidableEq

/-- Predicate register p0-p15. -/
structure PRegister where
  Idx : Fin 16
deriving DecidableEq

/-- In the C++ sources `PRegisterZero` is a zeroing-qualified predicate
wrapper around the same index; the qualifier carries no extra encoding
state relevant here. -/
abbrev PRegisterZero := PRegister

/-- Merging-qualified predicate wrapper, as `PRegisterZero`. -/
abbrev PRegisterMerge := PRegister

/-- General-purpose (scalar) register x0-x30 / sp. -/
structure Register where
  Idx : Fin 32
deriving DecidableEq

def z0 : ZRegister := ⟨0⟩
def z1 : ZRegister := ⟨1⟩
def z2 : ZRegister := ⟨2⟩
def z5 : ZRegister := ⟨5⟩
def p0 : PRegister := ⟨0⟩
def p3 : PRegister := ⟨3⟩
def p8 : PRegister := ⟨8⟩
def x0 : Register := ⟨0⟩
def x1 : Register := ⟨1⟩

/-- Modelled from the spec: `emit32` truncates to one little-endian 32-bit
word appended to the code buffer (the buffer itself is external; we return
the word). -/
def dc32 (Instr : Nat) : Nat := Instr % 4294967296

/-- Modelled from the spec: `Encode_rn` places a register index at bits 9:5. -/
def Encode_rn (idx : Nat) : Nat := idx <<< 5

/-- Modelled from the spec: `Encode_rd` places a register index at bits 4:0. -/
def Encode_rd (idx : Nat) : Nat := idx

/-- Modelled from the spec: `Encode_rm` places a register index at bits 20:16. -/
def Encode_rm (idx : Nat) : Nat := idx <<< 16

/-- Modelled from the spec: C++ `int32_t` → `uint32_t` conversion
(twos-complement reduction mod 2^32). -/
def toUInt32 (x : Int) : Nat := (x % 4294967296).toNat

/-- The per-element-size `tszh`/`tszl`/`imm3` split of an already-computed
`InverseShift`.  The source repeats this if-chain verbatim inside both
`SVEBitWiseShiftImmediatePred` and `SVEBitWiseShiftImmediateUnpred`
(SVEOps.inl:3764-3782 and 3815-3833); it is factored here once.  The final
branch is the `FEX_UNREACHABLE` 128-bit case, which both callers exclude
before reaching it. -/
def shiftSplit (size : SubRegSize) (InverseShift : Nat) : Nat × Nat × Nat :=
  if size = SubRegSize.i8Bit then
    (0b00, 0b01, InverseShift &&& 0b111)
  else if size = SubRegSize.i16Bit then
    (0b00, 0b10 ||| ((InverseShift >>> 3) &&& 0b1), InverseShift &&& 0b111)
  else if size = SubRegSize.i32Bit then
    (0b01, (InverseShift >>> 3) &&& 0b11, InverseShift &&& 0b111)
  else if size = SubRegSize.i64Bit then
    (0b10 ||| ((InverseShift >>> 5) &&& 1), (InverseShift >>> 3) &&& 0b11, InverseShift &&& 0b111)
  else
    (0, 0, 0)

/-- Primitive `SVEDup` (SVEOps.inl:2915): no validation of its own here. -/
def SVEDup (Op imm2 tsz : Nat) (zn zd : ZRegister) : Nat :=
  dc32 (Op ||| imm2 <<< 22 ||| tsz <<< 16 ||| Encode_rn zn.Idx.val ||| Encode_rd zd.Idx.val)

/-- Mnemonic `dup` (SVEOps.inl:21-54): per-size index range check, index
split across `tsz` and `imm2`. -/
def dup (size : SubRegSize) (zd zn : ZRegister) (Index : Nat) : Option Nat :=
  let Op : Nat := 0b0000010100100000001000 <<< 10
  if size = SubRegSize.i8Bit then
    if Index < 64 then
      some (SVEDup Op (Index >>> 4) (0b00001 ||| ((Index &&& 0b1111) <<< 1)) zn zd)
    else none
  else if size = SubRegSize.i16Bit then
    if Index < 32 then
      some (SVEDup Op (Index >>> 3) (0b00010 ||| ((Index &&& 0b111) <<< 2)) zn zd)
    else none
  else if size = SubRegSize.i32Bit then
    if Index < 16 then
      some (SVEDup Op (Index >>> 2) (0b00100 ||| ((Index &&& 0b11) <<< 3)) zn zd)
    else none
  else if size = SubRegSize.i64Bit then
    if Index < 8 then
      some (SVEDup Op (Index >>> 1) (0b01000 ||| ((Index &&& 0b1) <<< 4)) zn zd)
    else none
  else
    if Index < 4 then
      some (SVEDup Op Index 0b10000 zn zd)
    else none

/-- Primitive `SVEIntegerAddSubUnpredicated` (SVEOps.inl:2978-2988). -/
def SVEIntegerAddSubUnpredicated (Op opc : Nat) (size : SubRegSize)
    (zm zn zd : ZRegister) : Option Nat :=
  if size = SubRegSize.i128Bit then none
  else
    some (dc32 (Op ||| ToUnderlying size <<< 22 ||| zm.Idx.val <<< 16 ||| opc <<< 10
      ||| zn.Idx.val <<< 5 ||| zd.Idx.val))

/-- The opcode template shared by the unpredicated add/sub family
(SVEOps.inl:153 etc.). -/
def AddSubUnpredOp : Nat := 0b0000010000100000000 <<< 13

/-- Mnemonic `add` (unpredicated vectors, SVEOps.inl:152-155). -/
def add (size : SubRegSize) (zd zn zm : ZRegister) : Option Nat :=
  SVEIntegerAddSubUnpredicated AddSubUnpredOp 0b000 size zm zn zd

/-- Mnemonic `sub` (unpredicated vectors, SVEOps.inl:156-159). -/
def sub (size : SubRegSize) (zd zn zm : ZRegister) : Option Nat :=
  SVEIntegerAddSubUnpredicated AddSubUnpredOp 0b001 size zm zn zd

/-- Primitive `SVEBitWiseShiftImmediatePred` (SVEOps.inl:3745-3796):
128-bit exclusion, destructive aliasing `zd == zdn`, governing predicate
restricted to p0-p7, shift range check per direction, then the
`InverseShift` computation and `tszh`/`tszl`/`imm3` split. -/
def SVEBitWiseShiftImmediatePred (size : SubRegSize) (opc L U : Nat)
    (pg : PRegister) (zd zdn : ZRegister) (Shift : Nat) : Option Nat :=
  if size = SubRegSize.i128Bit then none
  else if ¬ zd = zdn then none
  else if ¬ pg.Idx.val ≤ 7 then none
  else
    let ElementSize := SubRegSizeInBits size
    let IsLeftShift := L ≠ 0
    if IsLeftShift ∧ ¬ Shift < ElementSize then none
    else if ¬ IsLeftShift ∧ ¬ (0 < Shift ∧ Shift ≤ ElementSize) then none
    else
      let InverseShift := if IsLeftShift then Shift else 2 * ElementSize - Shift
      let t := shiftSplit size InverseShift
      let Op : Nat := 0b0000010000000000100 <<< 13
      some (dc32 (Op ||| t.1 <<< 22 ||| opc <<< 18 ||| L <<< 17 ||| U <<< 16
        ||| pg.Idx.val <<< 10 ||| t.2.1 <<< 8 ||| t.2.2 <<< 5 ||| zd.Idx.val))

/-- Mnemonic `asr` by immediate, predicated (SVEOps.inl:728). -/
def asr (size : SubRegSize) (zd : ZRegister) (pg : PRegisterMerge)
    (zdn : ZRegister) (Shift : Nat) : Option Nat :=
  SVEBitWiseShiftImmediatePred size 0b00 0 0 pg zd zdn Shift

/-- Mnemonic `lsr` by immediate, predicated (SVEOps.inl:731). -/
def lsr (size : SubRegSize) (zd : ZRegister) (pg : PRegisterMerge)
    (zdn : ZRegister) (Shift : Nat) : Option Nat :=
  SVEBitWiseShiftImmediatePred size 0b00 0 1 pg zd zdn Shift

/-- Mnemonic `lsl` by immediate, predicated (SVEOps.inl:734). -/
def lsl (size : SubRegSize) (zd : ZRegister) (pg : PRegisterMerge)
    (zdn : ZRegister) (Shift : Nat) : Option Nat :=
  SVEBitWiseShiftImmediatePred size 0b00 1 1 pg zd zdn Shift

/-- Mnemonic `asrd` by immediate, predicated (SVEOps.inl:737). -/
def asrd (size : SubRegSize) (zd : ZRegister) (pg : PRegisterMerge)
    (zdn : ZRegister) (Shift : Nat) : Option Nat :=
  SVEBitWiseShiftImmediatePred size 0b01 0 0 pg zd zdn Shift

/-- Mnemonic `sqshl` by immediate, predicated (SVEOps.inl:740). -/
def sqshl (size : SubRegSize) (zd : ZRegister) (pg : PRegisterMerge)
    (zdn : ZRegister) (Shift : Nat) : Option Nat :=
  SVEBitWiseShiftImmediatePred size 0b01 1 0 pg zd zdn Shift

/-- Mnemonic `uqshl` by immediate, predicated (SVEOps.inl:743). -/
def uqshl (size : SubRegSize) (zd : ZRegister) (pg : PRegisterMerge)
    (zdn : ZRegister) (Shift : Nat) : Option Nat :=
  SVEBitWiseShiftImmediatePred size 0b01 1 1 pg zd zdn Shift

/-- Mnemonic `srshr` by immediate, predicated (SVEOps.inl:746). -/
def srshr (size : SubRegSize) (zd : ZRegister) (pg : PRegisterMerge)
    (zdn : ZRegister) (Shift : Nat) : Option Nat :=
  SVEBitWiseShiftImmediatePred size 0b11 0 0 pg zd zdn Shift

/-- Mnemonic `urshr` by immediate, predicated (SVEOps.inl:749). -/
def urshr (size : SubRegSize) (zd : ZRegister) (pg : PRegisterMerge)
    (zdn : ZRegister) (Shift : Nat) : Option Nat :=
  SVEBitWiseShiftImmediatePred size 0b11 0 1 pg zd zdn Shift

/-- Mnemonic `sqshlu` by immediate, predicated (SVEOps.inl:752). -/
def sqshlu (size : SubRegSize) (zd : ZRegister) (pg : PRegisterMerge)
    (zdn : ZRegister) (Shift : Nat) : Option Nat :=
  SVEBitWiseShiftImmediatePred size 0b11 1 1 pg zd zdn Shift

/-- Primitive `SVEBitWiseShiftImmediateUnpred` (SVEOps.inl:3798-3843);
the direction here is decoded from `opc == 0b11`. -/
def SVEBitWiseShiftImmediateUnpred (size : SubRegSize) (opc : Nat)
    (zd zn : ZRegister) (Shift : Nat) : Option Nat :=
  if size = SubRegSize.i128Bit then none
  else
    let ElementSize := SubRegSizeInBits size
    let IsLeftShift := opc = 0b11
    if IsLeftShift ∧ ¬ Shift < ElementSize then none
    else if ¬ IsLeftShift ∧ ¬ (0 < Shift ∧ Shift ≤ ElementSize) then none
    else
      let InverseShift := if IsLeftShift then Shift else 2 * ElementSize - Shift
      let t := shiftSplit size InverseShift
      some (dc32 (0b00000100001000001001000000000000 ||| t.1 <<< 22 ||| t.2.1 <<< 19
        ||| t.2.2 <<< 16 ||| opc <<< 10 ||| zn.Idx.val <<< 5 ||| zd.Idx.val))

/-- Primitive `SVEBitwiseShiftbyVector` (SVEOps.inl:2960-2975):
128-bit exclusion, destructive aliasing `zd == zn`, governing predicate
restricted to p0-p7. -/
def SVEBitwiseShiftbyVector (R L U : Nat) (size : SubRegSize) (pg : PRegister)
    (zd zn zm : ZRegister) : Option Nat :=
  if size = SubRegSize.i128Bit then none
  else if ¬ zd = zn then none
  else if ¬ pg.Idx.val ≤ 7 then none
  else
    some (dc32 (0b00000100000100001000000000000000 ||| ToUnderlying size <<< 22
      ||| R <<< 18 ||| L <<< 17 ||| U <<< 16 ||| pg.Idx.val <<< 10
      ||| zm.Idx.val <<< 5 ||| zd.Idx.val))

/-- Mnemonic `fcadd` (SVEOps.inl:131-149): size restricted to 16/32/64-bit,
predicate restricted to p0-p7, rotation restricted to 90/270 degrees,
destructive aliasing `zd == zn`. -/
def fcadd (size : SubRegSize) (zd : ZRegister) (pv : PRegisterMerge)
    (zn zm : ZRegister) (rot : Rotation) : Option Nat :=
  if ¬ (size = SubRegSize.i16Bit ∨ size = SubRegSize.i32Bit ∨ size = SubRegSize.i64Bit) then none
  else if ¬ pv.Idx.val ≤ 7 then none
  else if ¬ (rot = Rotation.ROTATE_90 ∨ rot = Rotation.ROTATE_270) then none
  else if ¬ zd = zn then none
  else
    let ConvertedRotation : Nat := if rot = Rotation.ROTATE_90 then 0 else 1
    some (dc32 (0b01100100000000001000000000000000 ||| ToUnderlying size <<< 22
      ||| ConvertedRotation <<< 16 ||| pv.Idx.val <<< 10 ||| zm.Idx.val <<< 5
      ||| zd.Idx.val))

/-- Mnemonic `histcnt` (SVEOps.inl:69-80): 32/64-bit only, governing predicate
restricted to p0-p7. -/
def histcnt (size : SubRegSize) (zd : ZRegister) (pv : PRegisterZero)
    (zn zm : ZRegister) : Option Nat :=
  if ¬ (size = SubRegSize.i32Bit ∨ size = SubRegSize.i64Bit) then none
  else if ¬ pv.Idx.val ≤ 7 then none
  else
    some (dc32 (0b01000101001000001100000000000000 ||| ToUnderlying size <<< 22
      ||| zm.Idx.val <<< 16 ||| pv.Idx.val <<< 10 ||| zn.Idx.val <<< 5
      ||| zd.Idx.val))

/-- Primitive `SVEIntegerCompareImm` (SVEOps.inl:3686-3698): pure field
composition, no validation of its own here. -/
def SVEIntegerCompareImm (lt ne imm7 : Nat) (size : SubRegSize)
    (pg : PRegister) (zn : ZRegister) (pd : PRegister) : Option Nat :=
  let Op : Nat := 0b00100100001000000000 <<< 12
  some (dc32 (Op ||| ToUnderlying size <<< 22 ||| imm7 <<< 14 ||| lt <<< 13
    ||| pg.Idx.val <<< 10 ||| zn.Idx.val <<< 5 ||| ne <<< 4 ||| pd.Idx.val))

/-- Mnemonic `cmphi` (unsigned-immediate compare, SVEOps.inl:221-225). -/
def cmphi (size : SubRegSize) (pd : PRegister) (pg : PRegisterZero)
    (zn : ZRegister) (imm : Nat) : Option Nat :=
  if size = SubRegSize.i128Bit then none
  else if ¬ imm < 128 then none
  else SVEIntegerCompareImm 0 1 imm size pg zn pd

/-- Primitive `SVEIntegerCompareSignedImm` (SVEOps.inl:3700-3713); the
`imm5` parameter is a C++ `uint32_t`, so the signed immediate arrives
already reduced mod 2^32 and only its low five bits are installed. -/
def SVEIntegerCompareSignedImm (op o2 ne imm5 : Nat) (size : SubRegSize)
    (pg : PRegister) (zn : ZRegister) (pd : PRegister) : Option Nat :=
  let Op : Nat := 0b0010010100000000000 <<< 13
  some (dc32 (Op ||| ToUnderlying size <<< 22 ||| (imm5 &&& 0b11111) <<< 16
    ||| op <<< 15 ||| o2 <<< 13 ||| pg.Idx.val <<< 10 ||| zn.Idx.val <<< 5
    ||| ne <<< 4 ||| pd.Idx.val))

/-- Mnemonic `cmpeq` with signed immediate (SVEOps.inl:246-250). -/
def cmpeq (size : SubRegSize) (pd : PRegister) (pg : PRegisterZero)
    (zn : ZRegister) (imm : Int) : Option Nat :=
  if size = SubRegSize.i128Bit then none
  else if ¬ (-16 ≤ imm ∧ imm ≤ 15) then none
  else SVEIntegerCompareSignedImm 1 0 0 (toUInt32 imm) size pg zn pd

/-- Mnemonic `cmpgt` with signed immediate (SVEOps.inl:252-256). -/
def cmpgt (size : SubRegSize) (pd : PRegister) (pg : PRegisterZero)
    (zn : ZRegister) (imm : Int) : Option Nat :=
  if size = SubRegSize.i128Bit then none
  else if ¬ (-16 ≤ imm ∧ imm ≤ 15) then none
  else SVEIntegerCompareSignedImm 0 0 1 (toUInt32 imm) size pg zn pd

/-- Mnemonic `cmpge` with signed immediate (SVEOps.inl:258-262). -/
def cmpge (size : SubRegSize) (pd : PRegister) (pg : PRegisterZero)
    (zn : ZRegister) (imm : Int) : Option Nat :=
  if size = SubRegSize.i128Bit then none
  else if ¬ (-16 ≤ imm ∧ imm ≤ 15) then none
  else SVEIntegerCompareSignedImm 0 0 0 (toUInt32 imm) size pg zn pd

/-- Mnemonic `cmplt` with signed immediate (SVEOps.inl:264-268). -/
def cmplt (size : SubRegSize) (pd : PRegister) (pg : PRegisterZero)
    (zn : ZRegister) (imm : Int) : Option Nat :=
  if size = SubRegSize.i128Bit then none
  else if ¬ (-16 ≤ imm ∧ imm ≤ 15) then none
  else SVEIntegerCompareSignedImm 0 1 0 (toUInt32 imm) size pg zn pd

/-- Mnemonic `cmple` with signed immediate (SVEOps.inl:270-274). -/
def cmple (size : SubRegSize) (pd : PRegister) (pg : PRegisterZero)
    (zn : ZRegister) (imm : Int) : Option Nat :=
  if size = SubRegSize.i128Bit then none
  else if ¬ (-16 ≤ imm ∧ imm ≤ 15) then none
  else SVEIntegerCompareSignedImm 0 1 1 (toUInt32 imm) size pg zn pd

/-- Primitive `SVEFloatCompareVector` (SVEOps.inl:3715-3730): excludes
128-bit and 8-bit sizes, governing predicate restricted to p0-p7. -/
def SVEFloatCompareVector (op o2 o3 : Nat) (size : SubRegSize) (zm : ZRegister)
    (pg : PRegister) (zn : ZRegister) (pd : PRegister) : Option Nat :=
  if size = SubRegSize.i128Bit then none
  else if size = SubRegSize.i8Bit then none
  else if ¬ pg.Idx.val ≤ 7 then none
  else
    some (dc32 (0b01100101000000000100000000000000 ||| ToUnderlying size <<< 22
      ||| zm.Idx.val <<< 16 ||| op <<< 15 ||| o2 <<< 13 ||| pg.Idx.val <<< 10
      ||| zn.Idx.val <<< 5 ||| o3 <<< 4 ||| pd.Idx.val))

/-- Primitive `SVEIntegerCompareVector` (SVEOps.inl:3869-3885): excludes
128-bit size, governing predicate restricted to p0-p7. -/
def SVEIntegerCompareVector (op o2 ne : Nat) (size : SubRegSize) (zm : ZRegister)
    (pg : PRegister) (zn : ZRegister) (pd : PRegister) : Option Nat :=
  if size = SubRegSize.i128Bit then none
  else if ¬ pg.Idx.val ≤ 7 then none
  else
    let Op : Nat := 0b0010010000000000000 <<< 13
    some (dc32 (Op ||| ToUnderlying size <<< 22 ||| zm.Idx.val <<< 16
      ||| op <<< 15 ||| o2 <<< 13 ||| pg.Idx.val <<< 10 ||| zn.Idx.val <<< 5
      ||| ne <<< 4 ||| pd.Idx.val))

/-- Tagged addressing-mode union `SVEMemOperand` (a struct with a
`MemType` tag and a payload union in the C++ sources). -/
inductive SVEMemOperand
  | ScalarScalar (rn : Register) (rm : Register)
  | ScalarImm (rn : Register) (Imm : Int)
  | ScalarVector (rn : Register) (zm : ZRegister)
  | VectorImm (zn : ZRegister) (Imm : Nat)

/-- Primitive `SVEContiguousLoadImm` (SVEOps.inl:3651-3661). -/
def SVEContiguousLoadImm (Op dtype : Nat) (Imm : Nat) (pg : PRegister)
    (rn : Register) (zt : ZRegister) : Nat :=
  dc32 (Op ||| dtype <<< 21 ||| (Imm &&& 0xF) <<< 16 ||| pg.Idx.val <<< 10
    ||| Encode_rn rn.Idx.val ||| zt.Idx.val)

/-- Primitive `SVEContiguousLoadStore` (SVEOps.inl:3663-3673). -/
def SVEContiguousLoadStore (Op dtype : Nat) (rm : Register) (pg : PRegister)
    (rn : Register) (zt : ZRegister) : Nat :=
  dc32 (Op ||| dtype <<< 21 ||| Encode_rm rm.Idx.val ||| pg.Idx.val <<< 10
    ||| Encode_rn rn.Idx.val ||| zt.Idx.val)

/-- Helper `ld1b` contiguous load, scalar plus immediate (SVEOps.inl:2587-2591);
named `ld1b_imm` here because Lean cannot overload the C++ name. -/
def ld1b_imm (size : SubRegSize) (zt : ZRegister) (pg : PRegisterZero)
    (rn : Register) (Imm : Int) : Option Nat :=
  if ¬ (-8 ≤ Imm ∧ Imm ≤ 7) then none
  else
    let Op : Nat := 0b1010010000000000101 <<< 13
    some (SVEContiguousLoadImm Op (0b0000 ||| ToUnderlying size) (toUInt32 Imm) pg rn zt)

/-- Helper `ld1b` contiguous load, scalar plus scalar (SVEOps.inl:2658-2661);
named `ld1b_reg` here because Lean cannot overload the C++ name. -/
def ld1b_reg (size : SubRegSize) (zt : ZRegister) (pg : PRegisterZero)
    (rn rm : Register) : Option Nat :=
  let Op : Nat := 0b1010010000000000010 <<< 13
  some (SVEContiguousLoadStore Op (0b0000 ||| ToUnderlying size) rm pg rn zt)

/-- Helper `ld1b` memory-operand dispatcher (SVEOps.inl:2375-2392): routes the
scalar-plus-scalar and scalar-plus-immediate modes to the matching
primitive and aborts (`Not yet implemented`) on the vector-offset modes. -/
def ld1b (size : SubRegSize) (zt : ZRegister) (pg : PRegisterZero)
    (Src : SVEMemOperand) : Option Nat :=
  match Src with
  | .ScalarScalar rn rm => ld1b_reg size zt pg rn rm
  | .ScalarImm rn Imm => ld1b_imm size zt pg rn Imm
  | .ScalarVector _ _ => none
  | .VectorImm _ _ => none

/-- Helper `ld1d` contiguous load, scalar plus immediate (SVEOps.inl:2646-2650). -/
def ld1d_imm (zt : ZRegister) (pg : PRegisterZero) (rn : Register)
    (Imm : Int) : Option Nat :=
  if ¬ (-8 ≤ Imm ∧ Imm ≤ 7) then none
  else
    let Op : Nat := 0b1010010000000000101 <<< 13
    some (SVEContiguousLoadImm Op 0b1111 (toUInt32 Imm) pg rn zt)

/-- Helper `ld1d` contiguous load, scalar plus scalar (SVEOps.inl:2709-2712). -/
def ld1d_reg (zt : ZRegister) (pg : PRegisterZero) (rn rm : Register) : Option Nat :=
  let Op : Nat := 0b1010010000000000010 <<< 13
  some (SVEContiguousLoadStore Op 0b1111 rm pg rn zt)

/-- Helper `ld1d` memory-operand dispatcher (SVEOps.inl:2488-2504). -/
def ld1d (zt : ZRegister) (pg : PRegisterZero) (Src : SVEMemOperand) : Option Nat :=
  match Src with
  | .ScalarScalar rn rm => ld1d_reg zt pg rn rm
  | .ScalarImm rn Imm => ld1d_imm zt pg rn Imm
  | .ScalarVector _ _ => none
  | .VectorImm _ _ => none

/-! ### Specification-side definitions

These are written from the words of the spec itself (§4.3 of the design document),
to be compared against the source-derived definitions above. -/

/-- The `InverseShift` of the spec: `(2 × element-bit-width) − shift` for right
shifts, `shift` for left shifts. -/
def specInverseShift (size : SubRegSize) (IsLeftShift : Bool) (shift : Nat) : Nat :=
  if IsLeftShift then shift else 2 * SubRegSizeInBits size - shift

/-- The per-size `tszh`/`tszl`/`imm3` table of the spec, with bit extraction
written arithmetically: `bitK x = x / 2^K % 2`, `bits[4:3] x = x / 8 % 4`,
`imm3 = InverseShift mod 8`. -/
def specShiftSplit (size : SubRegSize) (IsLeftShift : Bool) (shift : Nat) : Nat × Nat × Nat :=
  let inv := specInverseShift size IsLeftShift shift
  match size with
  | .i8Bit => (0b00, 0b01, inv % 8)
  | .i16Bit => (0b00, 0b10 + inv / 8 % 2, inv % 8)
  | .i32Bit => (0b01, inv / 8 % 4, inv % 8)
  | .i64Bit => (0b10 + inv / 32 % 2, inv / 8 % 4, inv % 8)
  | .i128Bit => (0, 0, 0)

/-- The shift-by-immediate precondition (§4.3): for right shifts
`1 ≤ shift ≤ element-bit-width`, for left shifts `0 ≤ shift < width`;
128-bit elements are excluded by both splitter entry points. -/
def shiftImmPre (size : SubRegSize) (IsLeftShift : Bool) (Shift : Nat) : Prop :=
  size ≠ SubRegSize.i128Bit ∧
    (IsLeftShift = true → Shift < SubRegSizeInBits size) ∧
    (IsLeftShift = false → 1 ≤ Shift ∧ Shift ≤ SubRegSizeInBits size)

instance (size : SubRegSize) (L : Bool) (Shift : Nat) :
    Decidable (shiftImmPre size L Shift) := by
  unfold shiftImmPre; infer_instance

/-- Decoder inverting the documented split: `tszh:tszl` selects the element
size (leading-one position), the remaining stored bits recover
the low bits of `InverseShift`, and the direction turns them back into the
original shift amount. -/
def shiftDecode (IsLeftShift : Bool) (t : Nat × Nat × Nat) : SubRegSize × Nat :=
  let size :=
    if 2 ≤ t.1 then SubRegSize.i64Bit
    else if t.1 = 1 then SubRegSize.i32Bit
    else if 2 ≤ t.2.1 then SubRegSize.i16Bit
    else SubRegSize.i8Bit
  let v :=
    match size with
    | .i8Bit => t.2.2
    | .i16Bit => (t.2.1 &&& 1) <<< 3 ||| t.2.2
    | .i32Bit => t.2.1 <<< 3 ||| t.2.2
    | .i64Bit => (t.1 &&& 1) <<< 5 ||| t.2.1 <<< 3 ||| t.2.2
    | .i128Bit => 0
  (size, if IsLeftShift then v else SubRegSizeInBits size - v)

/-- Per-size legal index bound of `dup` (SVEOps.inl:27-51). -/
def dupIndexBound : SubRegSize → Nat
  | .i8Bit => 64
  | .i16Bit => 32
  | .i32Bit => 16
  | .i64Bit => 8
  | .i128Bit => 4

/-! ### Bit-level helper lemmas -/

theorem mask_or (a b m : Nat) : (a ||| b) &&& m = (a &&& m) ||| (b &&& m) := by
  rw [Nat.and_comm _ m, Nat.and_or_distrib_left, Nat.and_comm m a, Nat.and_comm m b]

/-- A field shifted to a bit range where the mask has no set bits vanishes
under the mask. -/
theorem shl_and_eq_zero {x : Nat} (n s M : Nat) (hx : x < 2 ^ n)
    (hM : (M >>> s) &&& (2 ^ n - 1) = 0) : (x <<< s) &&& M = 0 := by
  apply Nat.eq_of_testBit_eq
  intro i
  simp only [Nat.testBit_and, Nat.testBit_shiftLeft, Nat.zero_testBit]
  by_cases hsi : s ≤ i
  · rcases Nat.lt_or_ge (i - s) n with ht | ht
    · have h1 : Nat.testBit ((M >>> s) &&& (2 ^ n - 1)) (i - s) = false := by
        rw [hM]; exact Nat.zero_testBit _
      rw [Nat.testBit_and, Nat.testBit_shiftRight, Nat.add_sub_cancel' hsi,
        Nat.testBit_two_pow_sub_one] at h1
      cases hMb : M.testBit i with
      | false => simp [hMb]
      | true =>
        rw [hMb] at h1
        simp only [Bool.true_and, decide_eq_false_iff_not] at h1
        exact absurd ht h1
    · have hxb : x.testBit (i - s) = false :=
        Nat.testBit_lt_two_pow (Nat.lt_of_lt_of_le hx (Nat.pow_le_pow_right (by omega) ht))
      simp [hxb]
  · simp [hsi]

/-- A bounded unshifted field vanishes under a mask with no low bits. -/
theorem and_eq_zero_of_lt {x : Nat} (n M : Nat) (hx : x < 2 ^ n)
    (hM : M &&& (2 ^ n - 1) = 0) : x &&& M = 0 := by
  have h := shl_and_eq_zero n 0 M hx (by simpa using hM)
  simpa using h

/-- A field shifted to a bit range fully covered by the mask passes through
the mask unchanged. -/
theorem shl_and_eq_self {x : Nat} (n s M : Nat) (hx : x < 2 ^ n)
    (hM : (M >>> s) &&& (2 ^ n - 1) = 2 ^ n - 1) : (x <<< s) &&& M = x <<< s := by
  apply Nat.eq_of_testBit_eq
  intro i
  simp only [Nat.testBit_and, Nat.testBit_shiftLeft]
  by_cases hsi : s ≤ i
  · rcases Nat.lt_or_ge (i - s) n with ht | ht
    · have h1 : Nat.testBit ((M >>> s) &&& (2 ^ n - 1)) (i - s)
          = Nat.testBit (2 ^ n - 1) (i - s) := by rw [hM]
      rw [Nat.testBit_and, Nat.testBit_shiftRight, Nat.add_sub_cancel' hsi,
        Nat.testBit_two_pow_sub_one] at h1
      rw [decide_eq_true ht, Bool.and_true] at h1
      simp [h1]
    · have hxb : x.testBit (i - s) = false :=
        Nat.testBit_lt_two_pow (Nat.lt_of_lt_of_le hx (Nat.pow_le_pow_right (by omega) ht))
      simp [hxb]
  · simp [hsi]

/-- Truncation `dc32` (reduction mod 2^32) is invisible to masks below 2^32. -/
theorem mask_dc32 (w M : Nat) (h : M < 2 ^ 32) : dc32 w &&& M = w &&& M := by
  show (w % 4294967296) &&& M = w &&& M
  rw [show (4294967296 : Nat) = 2 ^ 32 by norm_num, ← Nat.and_pow_two_sub_one_eq_mod,
    Nat.and_assoc, Nat.and_comm (2 ^ 32 - 1) M, Nat.and_pow_two_sub_one_of_lt_two_pow h]

/-- The size code of any non-128-bit element size fits the 2-bit field. -/
theorem ToUnderlying_lt (size : SubRegSize) (h : size ≠ SubRegSize.i128Bit) :
    ToUnderlying size < 4 := by
  cases size
  case i128Bit => exact absurd rfl h
  all_goals decide

/-- Masking the low five bits of the `uint32_t` image of a signed immediate
is reduction of the immediate mod 32. -/
theorem toUInt32_and31 (imm : Int) : toUInt32 imm &&& 31 = (imm % 32).toNat := by
  unfold toUInt32
  rw [show (31 : Nat) = 2 ^ 5 - 1 from rfl, Nat.and_pow_two_sub_one_eq_mod]
  have h : imm % 4294967296 % 32 = imm % 32 :=
    Int.emod_emod_of_dvd imm (by norm_num)
  omega

/-! ### Claims -/

/-- C1: `add` with 64-bit elements and zd=z0, zn=z1, zm=z2 appends exactly
the literal word 0x04E20020 (size=0b11 at 23:22, zm=2 at 20:16, zn=1 at
9:5, zd=0 at 4:0 over the documented template). -/
theorem C1_add_i64_z0_z1_z2 :
    add SubRegSize.i64Bit z0 z1 z2 = some 0x04E20020 := by decide

/-- C2: for every element size in 8/16/32/64 bits and every legal shift,
the predicated shift-by-immediate path computes `InverseShift`
(`2 × width − shift` for right shifts, `shift` for left shifts) and splits
it into `tszh`/`tszl`/`imm3` exactly per the per-size table of the spec; in
particular the actual `lsr` mnemonic with 32-bit elements and shift 17
emits fields derived from `InverseShift = 47`. -/
theorem C2_shift_split_matches_spec (size : SubRegSize) (L : Bool) (Shift : Nat)
    (h : shiftImmPre size L Shift) :
    shiftSplit size (if L then Shift else 2 * SubRegSizeInBits size - Shift)
      = specShiftSplit size L Shift ∧
    specInverseShift SubRegSize.i32Bit false 17 = 47 ∧
    (lsr SubRegSize.i32Bit z0 p0 z0 17).map
        (fun w => ((w >>> 22) &&& 0b11, (w >>> 8) &&& 0b11, (w >>> 5) &&& 0b111))
      = some (specShiftSplit SubRegSize.i32Bit false 17) := by
  refine ⟨?_, by decide, by decide⟩
  have key : ∀ Shift, Shift < 129 → ∀ size : SubRegSize, ∀ L : Bool,
      shiftImmPre size L Shift →
      shiftSplit size (if L then Shift else 2 * SubRegSizeInBits size - Shift)
        = specShiftSplit size L Shift := by decide
  have hb : Shift < 129 := by
    rcases h with ⟨h1, h2, h3⟩
    cases L
    · have := h3 rfl; cases size <;> simp [SubRegSizeInBits] at this <;> omega
    · have := h2 rfl; cases size <;> simp [SubRegSizeInBits] at this <;> omega
  exact key Shift hb size L h

theorem C2_witness :
    shiftImmPre SubRegSize.i32Bit false 17 ∧
    shiftSplit SubRegSize.i32Bit (2 * SubRegSizeInBits SubRegSize.i32Bit - 17)
      = specShiftSplit SubRegSize.i32Bit false 17 :=
  ⟨by decide, ((C2_shift_split_matches_spec SubRegSize.i32Bit false 17 (by decide)).1)⟩

/-- C3: over the legal shift range the `(tszh, tszl, imm3)` triple
determines the original (element size, shift) pair uniquely: the decoder
inverting the documented formula recovers exactly the inputs, for both
directions. -/
theorem C3_shift_split_roundtrip (size : SubRegSize) (L : Bool) (Shift : Nat)
    (h : shiftImmPre size L Shift) :
    shiftDecode L (shiftSplit size (if L then Shift else 2 * SubRegSizeInBits size - Shift))
      = (size, Shift) := by
  have key : ∀ Shift, Shift < 129 → ∀ size : SubRegSize, ∀ L : Bool,
      shiftImmPre size L Shift →
      shiftDecode L (shiftSplit size (if L then Shift else 2 * SubRegSizeInBits size - Shift))
        = (size, Shift) := by decide
  have hb : Shift < 129 := by
    rcases h with ⟨h1, h2, h3⟩
    cases L
    · have := h3 rfl; cases size <;> simp [SubRegSizeInBits] at this <;> omega
    · have := h2 rfl; cases size <;> simp [SubRegSizeInBits] at this <;> omega
  exact key Shift hb size L h

theorem C3_witness :
    shiftImmPre SubRegSize.i64Bit true 63 ∧
    shiftDecode true (shiftSplit SubRegSize.i64Bit 63) = (SubRegSize.i64Bit, 63) := by
  refine ⟨by decide, ?_⟩
  have h := C3_shift_split_roundtrip SubRegSize.i64Bit true 63 (by decide)
  simpa using h

/-- C4: `dup` accepts exactly the index ranges 0-63/0-31/0-15/0-7/0-3 for
8/16/32/64/128-bit elements (aborting on any larger index), and splits the
index across the `tsz` field (bits 20:16) and `imm2` field (bits 23:22);
for 16-bit elements and index 9 the fields are
`tsz = 0b00010 ||| ((9 &&& 0b111) <<< 2)` and `imm2 = 9 >>> 3`. -/
theorem C4_dup_index_ranges (size : SubRegSize) (Index : Nat) (zd zn : ZRegister) :
    ((dup size zd zn Index).isSome = true ↔ Index < dupIndexBound size) ∧
    (∀ w, dup SubRegSize.i16Bit zd zn 9 = some w →
      w &&& (0b11111 <<< 16) = (0b00010 ||| ((9 &&& 0b111) <<< 2)) <<< 16 ∧
      w &&& (0b11 <<< 22) = (9 >>> 3) <<< 22) := by
  constructor
  · cases size
    case i8Bit => by_cases h : Index < 64 <;> simp [dup, dupIndexBound, h]
    case i16Bit => by_cases h : Index < 32 <;> simp [dup, dupIndexBound, h]
    case i32Bit => by_cases h : Index < 16 <;> simp [dup, dupIndexBound, h]
    case i64Bit => by_cases h : Index < 8 <;> simp [dup, dupIndexBound, h]
    case i128Bit => by_cases h : Index < 4 <;> simp [dup, dupIndexBound, h]
  · intro w hw
    have hred : dup SubRegSize.i16Bit zd zn 9
        = some (SVEDup (0b0000010100100000001000 <<< 10) (9 >>> 3)
            (0b00010 ||| ((9 &&& 0b111) <<< 2)) zn zd) := rfl
    rw [hred, Option.some.injEq] at hw
    subst hw
    unfold SVEDup Encode_rn Encode_rd
    have hzn1 : (zn.Idx.val <<< 5) &&& (0b11111 <<< 16 : Nat) = 0 :=
      shl_and_eq_zero 5 5 _ zn.Idx.isLt (by decide)
    have hzd1 : zd.Idx.val &&& (0b11111 <<< 16 : Nat) = 0 :=
      and_eq_zero_of_lt 5 _ zd.Idx.isLt (by decide)
    have hzn2 : (zn.Idx.val <<< 5) &&& (0b11 <<< 22 : Nat) = 0 :=
      shl_and_eq_zero 5 5 _ zn.Idx.isLt (by decide)
    have hzd2 : zd.Idx.val &&& (0b11 <<< 22 : Nat) = 0 :=
      and_eq_zero_of_lt 5 _ zd.Idx.isLt (by decide)
    constructor
    · rw [mask_dc32 _ _ (by decide)]
      simp only [mask_or]
      rw [hzn1, hzd1]
      decide
    · rw [mask_dc32 _ _ (by decide)]
      simp only [mask_or]
      rw [hzn2, hzd2]
      decide

theorem C4_witness : (dup SubRegSize.i16Bit z0 z1 9).isSome = true :=
  (C4_dup_index_ranges SubRegSize.i16Bit 9 z0 z1).1.mpr (by decide)

/-- C5: for all operand combinations declared legal by the mnemonic layer,
the words produced by the `SVEIntegerAddSubUnpredicated` and
`SVEIntegerCompareImm` primitives agree with their fixed opcode templates
on every bit outside the declared variable fields (and fit in 32 bits):
no field write escapes its declared bit range. -/
theorem C5_fixed_template_bits (opc imm7 lt ne : Nat) (size : SubRegSize)
    (zm zn zd : ZRegister) (pg pd : PRegister)
    (hopc : opc < 8) (hsize : size ≠ SubRegSize.i128Bit) (himm : imm7 < 128)
    (hlt : lt < 2) (hne : ne < 2) :
    (∀ w, SVEIntegerAddSubUnpredicated AddSubUnpredOp opc size zm zn zd = some w →
      w < 4294967296 ∧ w &&& 0xFF20E000 = AddSubUnpredOp &&& 0xFF20E000) ∧
    (∀ w, SVEIntegerCompareImm lt ne imm7 size pg zn pd = some w →
      w < 4294967296 ∧ w &&& 0xFF200000 = (0b00100100001000000000 <<< 12) &&& 0xFF200000) := by
  have hts : ToUnderlying size < 4 := ToUnderlying_lt size hsize
  constructor
  · intro w hw
    rw [SVEIntegerAddSubUnpredicated, if_neg hsize, Option.some.injEq] at hw
    subst hw
    refine ⟨Nat.mod_lt _ (by decide), ?_⟩
    rw [mask_dc32 _ _ (by decide)]
    simp only [mask_or]
    rw [shl_and_eq_zero 2 22 _ hts (by decide),
        shl_and_eq_zero 5 16 _ zm.Idx.isLt (by decide),
        shl_and_eq_zero 3 10 _ hopc (by decide),
        shl_and_eq_zero 5 5 _ zn.Idx.isLt (by decide),
        and_eq_zero_of_lt 5 _ zd.Idx.isLt (by decide)]
    decide
  · intro w hw
    rw [SVEIntegerCompareImm, Option.some.injEq] at hw
    subst hw
    refine ⟨Nat.mod_lt _ (by decide), ?_⟩
    rw [mask_dc32 _ _ (by decide)]
    simp only [mask_or]
    rw [shl_and_eq_zero 2 22 _ hts (by decide),
        shl_and_eq_zero 7 14 _ himm (by decide),
        shl_and_eq_zero 1 13 _ hlt (by decide),
        shl_and_eq_zero 4 10 _ pg.Idx.isLt (by decide),
        shl_and_eq_zero 5 5 _ zn.Idx.isLt (by decide),
        shl_and_eq_zero 1 4 _ hne (by decide),
        and_eq_zero_of_lt 4 _ pd.Idx.isLt (by decide)]
    decide

theorem C5_witness :
    (0 : Nat) < 8 ∧ SubRegSize.i64Bit ≠ SubRegSize.i128Bit ∧ (5 : Nat) < 128 ∧
    (∀ w, SVEIntegerAddSubUnpredicated AddSubUnpredOp 0 SubRegSize.i64Bit z2 z1 z0 = some w →
      w < 4294967296 ∧ w &&& 0xFF20E000 = AddSubUnpredOp &&& 0xFF20E000) :=
  ⟨by decide, by decide, by decide,
    (C5_fixed_template_bits 0 5 0 1 SubRegSize.i64Bit z2 z1 z0 p0 p3
      (by decide) (by decide) (by decide) (by decide) (by decide)).1⟩

/-- C6: `fcadd` aborts on 0-degree and 180-degree rotations; a legal
rotation is encoded in bit 16 as 0 for 90 degrees and 1 for 270 degrees. -/
theorem C6_fcadd_rotation (size : SubRegSize) (zd : ZRegister) (pv : PRegisterMerge)
    (zn zm : ZRegister)
    (hs : size = SubRegSize.i16Bit ∨ size = SubRegSize.i32Bit ∨ size = SubRegSize.i64Bit)
    (hp : pv.Idx.val ≤ 7) (hz : zd = zn) :
    fcadd size zd pv zn zm Rotation.ROTATE_0 = none ∧
    fcadd size zd pv zn zm Rotation.ROTATE_180 = none ∧
    (∀ w, fcadd size zd pv zn zm Rotation.ROTATE_90 = some w → w &&& (1 <<< 16) = 0) ∧
    (∀ w, fcadd size zd pv zn zm Rotation.ROTATE_270 = some w →
      w &&& (1 <<< 16) = 1 <<< 16) := by
  have hts : ToUnderlying size < 4 := by
    rcases hs with h | h | h <;> subst h <;> decide
  refine ⟨by simp [fcadd], by simp [fcadd], ?_, ?_⟩
  · intro w hw
    rw [fcadd, if_neg (not_not_intro hs), if_neg (not_not_intro hp),
      if_neg (by decide), if_neg (not_not_intro hz), Option.some.injEq] at hw
    subst hw
    rw [mask_dc32 _ _ (by decide)]
    simp only [mask_or]
    rw [shl_and_eq_zero 2 22 _ hts (by decide),
        shl_and_eq_zero 4 10 _ pv.Idx.isLt (by decide),
        shl_and_eq_zero 5 5 _ zm.Idx.isLt (by decide),
        and_eq_zero_of_lt 5 _ zd.Idx.isLt (by decide)]
    decide
  · intro w hw
    rw [fcadd, if_neg (not_not_intro hs), if_neg (not_not_intro hp),
      if_neg (by decide), if_neg (not_not_intro hz), Option.some.injEq] at hw
    subst hw
    rw [mask_dc32 _ _ (by decide)]
    simp only [mask_or]
    rw [shl_and_eq_zero 2 22 _ hts (by decide),
        shl_and_eq_zero 4 10 _ pv.Idx.isLt (by decide),
        shl_and_eq_zero 5 5 _ zm.Idx.isLt (by decide),
        and_eq_zero_of_lt 5 _ zd.Idx.isLt (by decide)]
    decide

theorem C6_witness :
    fcadd SubRegSize.i16Bit z5 p3 z5 z2 Rotation.ROTATE_0 = none ∧
    fcadd SubRegSize.i16Bit z5 p3 z5 z2 Rotation.ROTATE_180 = none :=
  have h := C6_fcadd_rotation SubRegSize.i16Bit z5 p3 z5 z2
    (Or.inl rfl) (by decide) rfl
  ⟨h.1, h.2.1⟩

/-- C7: every destructive-form mnemonic aborts, emitting no word, when its
required aliased operand pair names two different registers: the
predicated shift-by-immediate family (`zd == zdn`), the predicated
shift-by-vector family (`zd == zn`), and `fcadd` (`zd == zn`). -/
theorem C7_destructive_aliasing (zd zx : ZRegister) (h : zd ≠ zx) :
    (∀ size opc L U pg Shift,
      SVEBitWiseShiftImmediatePred size opc L U pg zd zx Shift = none) ∧
    (∀ R L U size pg zm, SVEBitwiseShiftbyVector R L U size pg zd zx zm = none) ∧
    (∀ size pv zm rot, fcadd size zd pv zx zm rot = none) := by
  refine ⟨fun size opc L U pg Shift => ?_, fun R L U size pg zm => ?_,
    fun size pv zm rot => ?_⟩
  · simp [SVEBitWiseShiftImmediatePred, h]
  · simp [SVEBitwiseShiftbyVector, h]
  · simp [fcadd, h]

theorem C7_witness :
    SVEBitWiseShiftImmediatePred SubRegSize.i32Bit 0 0 1 p0 z0 z1 5 = none ∧
    SVEBitwiseShiftbyVector 0 0 1 SubRegSize.i32Bit p0 z0 z1 z2 = none ∧
    fcadd SubRegSize.i32Bit z0 p0 z1 z2 Rotation.ROTATE_90 = none :=
  have h := C7_destructive_aliasing z0 z1 (by decide)
  ⟨h.1 _ _ _ _ _ _, h.2.1 _ _ _ _ _ _, h.2.2 _ _ _ _⟩

/-- C8: mnemonics whose governing predicate is restricted to p0-p7 (the
predicated integer compare-vector family, the floating-point compare
family, `histcnt`) abort with no word when given a predicate with index
greater than 7, and accept p0-p7 whenever their other operands are legal. -/
theorem C8_predicate_range (op o2 ne : Nat) (size : SubRegSize)
    (zm zn zd : ZRegister) (pg : PRegister) (pd : PRegister) :
    (7 < pg.Idx.val →
      SVEIntegerCompareVector op o2 ne size zm pg zn pd = none ∧
      SVEFloatCompareVector op o2 ne size zm pg zn pd = none ∧
      histcnt size zd pg zn zm = none) ∧
    (pg.Idx.val ≤ 7 →
      (size ≠ SubRegSize.i128Bit →
        (SVEIntegerCompareVector op o2 ne size zm pg zn pd).isSome = true) ∧
      ((size = SubRegSize.i16Bit ∨ size = SubRegSize.i32Bit ∨ size = SubRegSize.i64Bit) →
        (SVEFloatCompareVector op o2 ne size zm pg zn pd).isSome = true) ∧
      ((size = SubRegSize.i32Bit ∨ size = SubRegSize.i64Bit) →
        (histcnt size zd pg zn zm).isSome = true)) := by
  constructor
  · intro h7
    have hnp : ¬ pg.Idx.val ≤ 7 := by omega
    refine ⟨?_, ?_, ?_⟩
    · simp [SVEIntegerCompareVector, hnp]
    · simp [SVEFloatCompareVector, hnp]
    · simp [histcnt, hnp]
  · intro hp
    refine ⟨fun hs => ?_, fun hs => ?_, fun hs => ?_⟩
    · simp [SVEIntegerCompareVector, hs, hp]
    · rcases hs with h | h | h <;> subst h <;> simp [SVEFloatCompareVector, hp]
    · rcases hs with h | h <;> subst h <;> simp [histcnt, hp]

theorem C8_witness :
    SVEIntegerCompareVector 0 0 1 SubRegSize.i32Bit z1 p8 z2 p0 = none ∧
    (histcnt SubRegSize.i32Bit z0 p3 z1 z2).isSome = true :=
  ⟨((C8_predicate_range 0 0 1 SubRegSize.i32Bit z1 z2 z0 p8 p0).1 (by decide)).1,
   ((C8_predicate_range 0 0 1 SubRegSize.i32Bit z1 z2 z0 p3 p0).2
     (by decide)).2.2 (Or.inl rfl)⟩

/-- C9: the contiguous load helpers taking an `SVEMemOperand` dispatch the
scalar-plus-scalar and scalar-plus-immediate modes to the corresponding
primitive and emit exactly one word (given a legal immediate offset),
while the scalar-plus-vector and vector-plus-immediate modes abort with
no word emitted. -/
theorem C9_memoperand_dispatch (size : SubRegSize) (zt : ZRegister)
    (pg : PRegisterZero) (rn rm : Register) (imm : Int)
    (zmv znv : ZRegister) (immv : Nat)
    (h8 : -8 ≤ imm) (h7 : imm ≤ 7) :
    (ld1b size zt pg (.ScalarScalar rn rm) = ld1b_reg size zt pg rn rm ∧
      (ld1b_reg size zt pg rn rm).isSome = true) ∧
    (ld1b size zt pg (.ScalarImm rn imm) = ld1b_imm size zt pg rn imm ∧
      (ld1b_imm size zt pg rn imm).isSome = true) ∧
    ld1b size zt pg (.ScalarVector rn zmv) = none ∧
    ld1b size zt pg (.VectorImm znv immv) = none ∧
    (ld1d zt pg (.ScalarScalar rn rm) = ld1d_reg zt pg rn rm ∧
      (ld1d_reg zt pg rn rm).isSome = true) ∧
    (ld1d zt pg (.ScalarImm rn imm) = ld1d_imm zt pg rn imm ∧
      (ld1d_imm zt pg rn imm).isSome = true) ∧
    ld1d zt pg (.ScalarVector rn zmv) = none ∧
    ld1d zt pg (.VectorImm znv immv) = none := by
  have hP : (-8 ≤ imm ∧ imm ≤ 7) := ⟨h8, h7⟩
  refine ⟨⟨rfl, rfl⟩, ⟨rfl, ?_⟩, rfl, rfl, ⟨rfl, rfl⟩, ⟨rfl, ?_⟩, rfl, rfl⟩
  · simp [ld1b_imm, hP]
  · simp [ld1d_imm, hP]

theorem C9_witness :
    (-8 : Int) ≤ -3 ∧ (-3 : Int) ≤ 7 ∧
    ld1d z0 p3 (.ScalarVector x0 z1) = none ∧
    (ld1d_imm z0 p3 x0 (-3)).isSome = true :=
  have h := C9_memoperand_dispatch SubRegSize.i8Bit z0 p3 x0 x1 (-3) z1 z2 0
    (by decide) (by decide)
  ⟨by decide, by decide, h.2.2.2.2.2.2.1, h.2.2.2.2.2.1.2⟩

/-- Shared field computation for the signed compare-with-immediate
primitive: the low five bits of `imm5` land at bits 20:16 and nothing
else reaches that field. -/
theorem signedImmField (op o2 ne imm5 : Nat) (size : SubRegSize)
    (pg pd : PRegister) (zn : ZRegister)
    (hsize : size ≠ SubRegSize.i128Bit) (hop : op < 2) (ho2 : o2 < 2) (hne : ne < 2) :
    ∀ w, SVEIntegerCompareSignedImm op o2 ne imm5 size pg zn pd = some w →
      w &&& (0b11111 <<< 16) = (imm5 &&& 0b11111) <<< 16 := by
  intro w hw
  rw [SVEIntegerCompareSignedImm, Option.some.injEq] at hw
  subst hw
  rw [mask_dc32 _ _ (by decide)]
  simp only [mask_or]
  rw [shl_and_eq_zero 2 22 _ (ToUnderlying_lt size hsize) (by decide),
      shl_and_eq_self 5 16 _ (Nat.and_lt_two_pow imm5 (by decide)) (by decide),
      shl_and_eq_zero 1 15 _ hop (by decide),
      shl_and_eq_zero 1 13 _ ho2 (by decide),
      shl_and_eq_zero 4 10 _ pg.Idx.isLt (by decide),
      shl_and_eq_zero 5 5 _ zn.Idx.isLt (by decide),
      shl_and_eq_zero 1 4 _ hne (by decide),
      and_eq_zero_of_lt 4 _ pd.Idx.isLt (by decide)]
  have hOp : (0b0010010100000000000 <<< 13 : Nat) &&& (0b11111 <<< 16) = 0 := by decide
  rw [hOp]
  simp

/-- C10: the signed compare-with-immediate mnemonics abort for immediates
outside -16..15, and encode a legal immediate as its low five bits in
twos-complement (`imm mod 32`) at bits 20:16 of the word. -/
theorem C10_signed_compare_imm (size : SubRegSize) (pd : PRegister)
    (pg : PRegisterZero) (zn : ZRegister) (imm : Int) :
    (¬ (-16 ≤ imm ∧ imm ≤ 15) →
      cmpeq size pd pg zn imm = none ∧ cmpgt size pd pg zn imm = none ∧
      cmpge size pd pg zn imm = none ∧ cmplt size pd pg zn imm = none ∧
      cmple size pd pg zn imm = none) ∧
    (size ≠ SubRegSize.i128Bit → -16 ≤ imm → imm ≤ 15 →
      ∀ w, (cmpeq size pd pg zn imm = some w ∨ cmpgt size pd pg zn imm = some w ∨
            cmpge size pd pg zn imm = some w ∨ cmplt size pd pg zn imm = some w ∨
            cmple size pd pg zn imm = some w) →
        w &&& (0b11111 <<< 16) = (imm % 32).toNat <<< 16) := by
  constructor
  · intro h
    exact ⟨by simp [cmpeq, h], by simp [cmpgt, h], by simp [cmpge, h],
      by simp [cmplt, h], by simp [cmple, h]⟩
  · intro hsize h16 h15 w hdisj
    have hrange : (-16 ≤ imm ∧ imm ≤ 15) := ⟨h16, h15⟩
    rcases hdisj with h | h | h | h | h
    · rw [cmpeq, if_neg hsize, if_neg (not_not_intro hrange)] at h
      have := signedImmField 1 0 0 (toUInt32 imm) size pg pd zn hsize
        (by decide) (by decide) (by decide) w h
      rw [toUInt32_and31] at this
      exact this
    · rw [cmpgt, if_neg hsize, if_neg (not_not_intro hrange)] at h
      have := signedImmField 0 0 1 (toUInt32 imm) size pg pd zn hsize
        (by decide) (by decide) (by decide) w h
      rw [toUInt32_and31] at this
      exact this
    · rw [cmpge, if_neg hsize, if_neg (not_not_intro hrange)] at h
      have := signedImmField 0 0 0 (toUInt32 imm) size pg pd zn hsize
        (by decide) (by decide) (by decide) w h
      rw [toUInt32_and31] at this
      exact this
    · rw [cmplt, if_neg hsize, if_neg (not_not_intro hrange)] at h
      have := signedImmField 0 1 0 (toUInt32 imm) size pg pd zn hsize
        (by decide) (by decide) (by decide) w h
      rw [toUInt32_and31] at this
      exact this
    · rw [cmple, if_neg hsize, if_neg (not_not_intro hrange)] at h
      have := signedImmField 0 1 1 (toUInt32 imm) size pg pd zn hsize
        (by decide) (by decide) (by decide) w h
      rw [toUInt32_and31] at this
      exact this

theorem C10_witness :
    (-16 : Int) ≤ -1 ∧ (-1 : Int) ≤ 15 ∧
    ∃ w, cmpeq SubRegSize.i64Bit p0 p3 z1 (-1) = some w ∧
      w &&& (0b11111 <<< 16) = 0b11111 <<< 16 := by
  refine ⟨by decide, by decide, ?_⟩
  cases hc : cmpeq SubRegSize.i64Bit p0 p3 z1 (-1) with
  | none => exact absurd hc (by decide)
  | some w =>
    refine ⟨w, rfl, ?_⟩
    have := (C10_signed_compare_imm SubRegSize.i64Bit p0 p3 z1 (-1)).2
      (by decide) (by decide) (by decide) w (Or.inl hc)
    simpa using this

end SVEOps
